import Mathlib

/-!
Verification development for the gohtmx authentication core.

Shallow embedding of the Go sources:
  internal/service/auth_service.go       (AuthService)
  internal/auth/adapter/gorm/session_adapter.go  (SessionAdapter)
  internal/auth/adapter/gorm user adapter file   (UserAdapter)
  internal/handlers/auth_handler.go      (AuthHandler error mapping)
together with spec-modelled definitions for parts of the repository whose
source files are not available here (the auth package with AuthManager and
the lockout tracker, the rate-limiter middleware); each of those carries a
doc comment starting with the words Modelled from the spec.

Machine integers are modelled as Nat (Go uint64 bounds written explicitly
where the code checks them); Go time.Time instants are modelled as Nat
(the zero value time.Time converts to 0); fallible Go functions return
Except.  External collaborators (the gorm database, crypto/sha256, bcrypt,
crypto/rand, the SMTP email sender) are modelled as explicit state (lists
of rows) and as function fields of an environment record Env.
-/

namespace GoHtmx

/-- Error kinds of the auth core (section 7 of the spec).  The Go sources use
sentinel error values created with errors.New; storage carries the message of
a plain error object such as the gorm or strconv errors. -/
inductive AuthErr where
  | invalidCredentials
  | userNotActive
  | accountLocked
  | sessionNotFound
  | sessionExpired
  | recordNotFound
  | storage (msg : String)
deriving DecidableEq, Repr

/-- Service-level error values from internal/service/auth_service.go
(ErrInvalidCredentials, ErrUserNotActive, ErrInvalidToken, ErrExpiredToken,
the ad-hoc locked-account error created in Login, and pass-through of
lower-level errors). -/
inductive SvcErr where
  | invalidCredentials
  | userNotActive
  | invalidToken
  | expiredToken
  | locked
  | auth (e : AuthErr)
deriving DecidableEq, Repr

/-- Message of an auth-level error, as Go err.Error() would return it;
for the sentinel values the Portuguese messages of the source are used. -/
def AuthErr.message : AuthErr → String
  | .invalidCredentials => "credenciais inválidas"
  | .userNotActive => "usuário inativo"
  | .accountLocked => "conta bloqueada"
  | .sessionNotFound => "sessão não encontrada"
  | .sessionExpired => "sessão expirada"
  | .recordNotFound => "record not found"
  | .storage msg => msg

/-- Message of a service-level error, as Go err.Error() would return it,
matching the errors.New strings in auth_service.go. -/
def SvcErr.message : SvcErr → String
  | .invalidCredentials => "credenciais inválidas"
  | .userNotActive => "usuário inativo"
  | .invalidToken => "token inválido"
  | .expiredToken => "token expirado"
  | .locked => "conta temporariamente bloqueada, tente novamente mais tarde"
  | .auth e => e.message

/-- models.User row (fields used by the auth core and by the user adapter's
UserData projection; the models package source is not available, the fields
are those referenced by the adapters and the service).  ResetTokenExpiry 0
and LastLogin 0 model the Go zero value time.Time. -/
structure MUser where
  id : Nat
  username : String
  email : String
  displayName : String
  firstName : String
  lastName : String
  passwordHash : String
  resetToken : String
  resetTokenExpiry : Nat
  role : String
  active : Bool
  emailVerified : Bool
  lastLogin : Nat
deriving DecidableEq, Repr

/-- models.Session row: the persisted session with a numeric (uint) UserID. -/
structure MSession where
  id : String
  userID : Nat
  expiresAt : Nat
  createdAt : Nat
  userAgent : String
  ip : String
deriving DecidableEq, Repr

/-- auth.Session: the session value returned to callers, with a string UserID. -/
structure ASession where
  id : String
  userID : String
  expiresAt : Nat
  createdAt : Nat
  userAgent : String
  ip : String
deriving DecidableEq, Repr

/-- auth.SessionMetadata captured at session creation. -/
structure SessionMeta where
  userAgent : String
  ip : String
deriving DecidableEq, Repr

/-- The attribute bag of auth.UserData: a Go map whose four keys are exactly
the ones the user adapter's toUserData populates, modelled as a record. -/
structure UserAttributes where
  firstName : String
  lastName : String
  emailVerified : Bool
  lastLogin : Nat
deriving DecidableEq, Repr

/-- auth.UserData: the read projection of a user handed back by the manager
(fields as the user adapter's toUserData fills them). -/
structure UserData where
  id : String
  identifier : String
  email : String
  displayName : String
  role : String
  active : Bool
  attributes : UserAttributes
deriving DecidableEq, Repr

/-- The relational store behind the gorm adapters: user rows and session rows. -/
structure DB where
  users : List MUser
  sessions : List MSession
deriving DecidableEq, Repr

/-- A password-reset email handed to the notification collaborator
(arguments of EmailServiceInterface.SendPasswordResetEmail in the order of the
call in auth_service.go); delivered records whether the collaborator reported
success. -/
structure SentEmail where
  toAddr : String
  token : String
  username : String
  displayName : String
  delivered : Bool
deriving DecidableEq, Repr

/-- Environment of external collaborators and configuration: the current
instant, crypto/rand (randomBytes n is the result of filling a buffer of n
bytes), auth.GenerateSessionID, hashToken as hex-encoded crypto/sha256,
bcrypt hashing and verification, the email sender outcome, the session TTL
and the lockout configuration of section 4.2 of the spec. -/
structure Env where
  now : Nat
  randomBytes : Nat → Except String (List Nat)
  genSessionID : Except String String
  sha256Hex : String → String
  bcryptHash : String → String
  verifyPassword : String → String → Bool
  sendResetEmail : String → String → String → String → Bool
  sessionTTL : Nat
  maxFailedAttempts : Nat
  lockoutDuration : Nat
  attemptWindow : Nat

/-- strconv.ParseUint(s, 10, 64): rejects the empty string, any non-digit
character (no sign prefix is permitted for unsigned parsing) and values that
do not fit in 64 bits. -/
def parseUint10 (s : String) : Except String Nat :=
  if s.isEmpty then .error "invalid syntax"
  else if s.toList.all Char.isDigit then
    if s.toList.foldl (fun a c => a * 10 + (c.toNat - 48)) 0 < 2 ^ 64 then
      .ok (s.toList.foldl (fun a c => a * 10 + (c.toNat - 48)) 0)
    else .error "value out of range"
  else .error "invalid syntax"

/-- strconv.FormatUint(v, 10): decimal encoding of a natural number. -/
def formatUint10 (v : Nat) : String := Nat.repr v

namespace SessionAdapter

/-- session_adapter.go toAuthSession: converts a stored row to an auth.Session,
re-encoding the numeric UserID in decimal. -/
def toAuthSession (s : MSession) : ASession :=
  { id := s.id
    userID := formatUint10 s.userID
    expiresAt := s.expiresAt
    createdAt := s.createdAt
    userAgent := s.userAgent
    ip := s.ip }

/-- session_adapter.go CreateSession: parse the userID as a decimal unsigned
integer (error aborts before any row is written), generate a session id, insert
the row, and return the auth.Session view of the inserted row. -/
def CreateSession (env : Env) (db : DB) (userID : String) (expiresAt : Nat)
    (md : SessionMeta) : Except AuthErr (DB × ASession) :=
  match parseUint10 userID with
  | .error e => .error (.storage e)
  | .ok uid =>
    match env.genSessionID with
    | .error e => .error (.storage e)
    | .ok sid =>
      let s : MSession :=
        { id := sid
          userID := uid % 2 ^ 64
          expiresAt := expiresAt
          createdAt := env.now
          userAgent := md.userAgent
          ip := md.ip }
      .ok ({ db with sessions := db.sessions ++ [s] }, toAuthSession s)

/-- session_adapter.go GetSession: first row whose id matches, or
auth.ErrSessionNotFound when gorm reports ErrRecordNotFound. -/
def GetSession (db : DB) (sessionID : String) : Except AuthErr ASession :=
  match db.sessions.find? (fun s => s.id == sessionID) with
  | none => .error .sessionNotFound
  | some s => .ok (toAuthSession s)

/-- session_adapter.go UpdateSessionExpiry: set expires_at on the matching rows. -/
def UpdateSessionExpiry (db : DB) (sessionID : String) (expiresAt : Nat) : DB :=
  { db with
    sessions := db.sessions.map
      (fun s => if s.id == sessionID then { s with expiresAt := expiresAt } else s) }

/-- session_adapter.go DeleteSession: delete the rows whose id matches; a gorm
delete touching zero rows is not an error, so deleting an absent session
succeeds (I/O failures of the external database are not modelled). -/
def DeleteSession (db : DB) (sessionID : String) : DB :=
  { db with sessions := db.sessions.filter (fun s => s.id != sessionID) }

/-- session_adapter.go DeleteUserSessions: parse the userID (error aborts
before any row is deleted), then delete every session row of that user. -/
def DeleteUserSessions (db : DB) (userID : String) : Except AuthErr DB :=
  match parseUint10 userID with
  | .error e => .error (.storage e)
  | .ok uid =>
    .ok { db with sessions := db.sessions.filter (fun s => s.userID != uid % 2 ^ 64) }

end SessionAdapter

namespace UserAdapter

/-- user_adapter.go toUserData: the auth.UserData projection of a user row -
decimal id, username as the identifier, email, display name, role, active
flag, and the attribute bag with first name, last name, email-verified and
last-login. -/
def toUserData (u : MUser) : UserData :=
  { id := formatUint10 u.id
    identifier := u.username
    email := u.email
    displayName := u.displayName
    role := u.role
    active := u.active
    attributes :=
      { firstName := u.firstName
        lastName := u.lastName
        emailVerified := u.emailVerified
        lastLogin := u.lastLogin } }

/-- user_adapter.go FindUserByIdentifier: first user whose username or email
matches; a gorm record-not-found maps to auth.ErrInvalidCredentials (not to a
distinct not-found error), and the found row is returned as UserData. -/
def FindUserByIdentifier (db : DB) (identifier : String) : Except AuthErr UserData :=
  match db.users.find? (fun u => u.username == identifier || u.email == identifier) with
  | none => .error .invalidCredentials
  | some u => .ok (toUserData u)

/-- user_adapter.go FindUserByID: parse the id as a decimal unsigned integer
(a parse failure maps to auth.ErrInvalidCredentials), look the row up by
primary key (record-not-found also maps to auth.ErrInvalidCredentials). -/
def FindUserByID (db : DB) (id : String) : Except AuthErr UserData :=
  match parseUint10 id with
  | .error _ => .error .invalidCredentials
  | .ok uid =>
    match db.users.find? (fun u => u.id == uid) with
    | none => .error .invalidCredentials
    | some u => .ok (toUserData u)

/-- user_adapter.go UpdateUser: a gorm Save of the full record - the row with
the same primary key is replaced by the given record (I/O failures of the
external database are not modelled). -/
def UpdateUser (db : DB) (u : MUser) : DB :=
  { db with users := db.users.map (fun v => if v.id == u.id then u else v) }

/-- user_adapter.go ValidateCredentials: resolve the user by username or
email - any lookup failure returns auth.ErrInvalidCredentials, and so does a
bcrypt mismatch of the password against the stored hash; on success the
last-login time is set to now and saved (a save failure is only logged) and
the UserData projection of the updated row is returned. -/
def ValidateCredentials (env : Env) (db : DB) (identifier password : String) :
    Except AuthErr (DB × UserData) :=
  match db.users.find? (fun u => u.username == identifier || u.email == identifier) with
  | none => .error .invalidCredentials
  | some user =>
    if env.verifyPassword user.passwordHash password = false then
      .error .invalidCredentials
    else
      let user := { user with lastLogin := env.now }
      .ok (UpdateUser db user, toUserData user)

/-- user_adapter.go FindByEmail: first user row whose email matches; the gorm
error (record-not-found when no row matches) is propagated unchanged. -/
def FindByEmail (db : DB) (email : String) : Except AuthErr MUser :=
  match db.users.find? (fun u => u.email == email) with
  | none => .error .recordNotFound
  | some u => .ok u

end UserAdapter

/-- Per-account lockout state of section 4.2 of the spec: failed-attempt
count, first failure of the current window, lock-until instant (0 when not
locked). -/
structure Lockout where
  count : Nat
  firstFail : Nat
  lockUntil : Nat
deriving DecidableEq, Repr

/-- State of the auth manager: the store plus the per-account lockout map. -/
structure AMState where
  db : DB
  lockouts : List (String × Lockout)
deriving DecidableEq, Repr

/-- A lockout state currently denies login attempts. -/
def Lockout.isLocked (lk : Lockout) (now : Nat) : Prop :=
  lk.lockUntil ≠ 0 ∧ now < lk.lockUntil

instance (lk : Lockout) (now : Nat) : Decidable (Lockout.isLocked lk now) := by
  unfold Lockout.isLocked; infer_instance

namespace AuthManager

/-- Modelled from the spec: lockout lookup of section 4.2 - if lock-until is
set and in the past, the state self-resets before being evaluated. -/
def getLockout (l : List (String × Lockout)) (key : String) (now : Nat) : Lockout :=
  match l.find? (fun p => p.1 == key) with
  | none => ⟨0, 0, 0⟩
  | some p => if p.2.lockUntil ≠ 0 ∧ p.2.lockUntil ≤ now then ⟨0, 0, 0⟩ else p.2

/-- Replace or insert the lockout entry of a key. -/
def setLockout (l : List (String × Lockout)) (key : String) (lk : Lockout) :
    List (String × Lockout) :=
  if l.any (fun p => p.1 == key) then
    l.map (fun p => if p.1 == key then (key, lk) else p)
  else (key, lk) :: l

/-- Modelled from the spec: section 4.2 - on failure increment the counter
(restarting the window when the previous first failure is out of the window);
when the counter reaches the maximum, set lock-until = now + lockout duration
and stop incrementing further. -/
def recordFailure (env : Env) (l : List (String × Lockout)) (key : String) :
    List (String × Lockout) :=
  let lk := getLockout l key env.now
  if lk.count ≥ env.maxFailedAttempts then l
  else
    let fresh := lk.count = 0 ∨ env.now > lk.firstFail + env.attemptWindow
    let count := if fresh then 1 else lk.count + 1
    let firstFail := if fresh then env.now else lk.firstFail
    let lockUntil := if count ≥ env.maxFailedAttempts then env.now + env.lockoutDuration else 0
    setLockout l key ⟨count, firstFail, lockUntil⟩

/-- Modelled from the spec: section 4.2 - on any successful login the lockout
state resets unconditionally. -/
def clearLockout (l : List (String × Lockout)) (key : String) :
    List (String × Lockout) :=
  setLockout l key ⟨0, 0, 0⟩

/-- Modelled from the spec: AuthManager.Login of section 4.1 (the auth
package source is not available) - (1) a currently locked account fails with
AccountLocked before the credentials are touched; (2, 3) the credentials are
resolved and verified through the adapter's ValidateCredentials, which
returns InvalidCredentials both for an unknown identifier and for a wrong
password (the dummy-hash timing equalisation of the spec is not modelled); a
failed check increments the lockout counter (section 4.2); on success the
lockout state resets, an inactive user fails with UserNotActive, and a
session with the fixed default TTL is created through the session adapter. -/
def Login (env : Env) (st : AMState) (identifier password : String)
    (md : SessionMeta) : Except AuthErr (ASession × UserData) × AMState :=
  let lk := getLockout st.lockouts identifier env.now
  if lk.isLocked env.now then (.error .accountLocked, st)
  else
    match UserAdapter.ValidateCredentials env st.db identifier password with
    | .error e =>
      (.error e, { st with lockouts := recordFailure env st.lockouts identifier })
    | .ok (db, user) =>
      let st := { st with db := db, lockouts := clearLockout st.lockouts identifier }
      if user.active = false then (.error .userNotActive, st)
      else
        match SessionAdapter.CreateSession env st.db user.id
            (env.now + env.sessionTTL) md with
        | .error e => (.error e, st)
        | .ok (db, s) => (.ok (s, user), { st with db := db })

/-- Modelled from the spec: AuthManager.ValidateSession of section 4.1 -
lookup through the adapter (SessionNotFound when absent), SessionExpired when
past expiry (deleting the expired row as a side effect), UserNotActive when
the owning user is inactive; the optional sliding-window extension is not
enabled.  The possibly modified store is returned alongside the outcome. -/
def ValidateSession (env : Env) (db : DB) (sessionID : String) :
    Except AuthErr (ASession × UserData) × DB :=
  match SessionAdapter.GetSession db sessionID with
  | .error e => (.error e, db)
  | .ok s =>
    if env.now > s.expiresAt then
      (.error .sessionExpired, SessionAdapter.DeleteSession db sessionID)
    else
      match db.users.find? (fun u => formatUint10 u.id == s.userID) with
      | none => (.error .recordNotFound, db)
      | some u =>
        if u.active = false then (.error .userNotActive, db)
        else (.ok (s, UserAdapter.toUserData u), db)

/-- Modelled from the spec: AuthManager.Logout of section 4.1 - deletes the
session through the adapter; idempotent, deleting an absent session is not an
error. -/
def Logout (db : DB) (sessionID : String) : Except AuthErr DB :=
  .ok (SessionAdapter.DeleteSession db sessionID)

/-- Modelled from the spec: AuthManager.LogoutAll of section 4.1 - deletes
every session owned by the user through the adapter. -/
def LogoutAll (db : DB) (userID : String) : Except AuthErr DB :=
  SessionAdapter.DeleteUserSessions db userID

end AuthManager

/-- Lowercase hexadecimal digit of a value below 16 (encoding/hex alphabet). -/
def hexDigit (n : Nat) : Char :=
  if n < 10 then Char.ofNat (48 + n) else Char.ofNat (87 + n)

/-- Two lowercase hex digits of one byte (encoding/hex). -/
def byteHex (b : Nat) : String :=
  String.mk [hexDigit (b / 16 % 16), hexDigit (b % 16)]

/-- hex.EncodeToString over a byte slice. -/
def hexEncode : List Nat → String
  | [] => ""
  | b :: bs => byteHex b ++ hexEncode bs

namespace AuthService

/-- auth_service.go LoginResponse. -/
structure LoginResponse where
  sessionID : String
  expiresAt : Nat
  user : UserData
deriving DecidableEq, Repr

/-- auth_service.go Login: delegates to the auth manager and maps the error
values: auth.ErrInvalidCredentials to ErrInvalidCredentials,
auth.ErrUserNotActive to ErrUserNotActive, auth.ErrAccountLocked to a fresh
locked-account error, anything else passes through unchanged. -/
def Login (env : Env) (st : AMState) (username password ip userAgent : String) :
    Except SvcErr LoginResponse × AMState :=
  let md : SessionMeta := { userAgent := userAgent, ip := ip }
  match AuthManager.Login env st username password md with
  | (.error e, st) =>
    match e with
    | .invalidCredentials => (.error .invalidCredentials, st)
    | .userNotActive => (.error .userNotActive, st)
    | .accountLocked => (.error .locked, st)
    | e => (.error (.auth e), st)
  | (.ok (session, user), st) =>
    (.ok { sessionID := session.id, expiresAt := session.expiresAt, user := user }, st)

/-- auth_service.go ValidateSession: maps auth.ErrSessionNotFound to
ErrInvalidToken, auth.ErrSessionExpired to ErrExpiredToken,
auth.ErrUserNotActive to ErrUserNotActive, and passes other errors through. -/
def ValidateSession (env : Env) (db : DB) (sessionID : String) :
    Except SvcErr (ASession × UserData) × DB :=
  match AuthManager.ValidateSession env db sessionID with
  | (.error e, db) =>
    match e with
    | .sessionNotFound => (.error .invalidToken, db)
    | .sessionExpired => (.error .expiredToken, db)
    | .userNotActive => (.error .userNotActive, db)
    | e => (.error (.auth e), db)
  | (.ok r, db) => (.ok r, db)

/-- auth_service.go Logout: delegates to the auth manager. -/
def Logout (db : DB) (sessionID : String) : Except SvcErr DB :=
  match AuthManager.Logout db sessionID with
  | .error e => .error (.auth e)
  | .ok db => .ok db

/-- auth_service.go LogoutAll: delegates to the auth manager. -/
def LogoutAll (db : DB) (userID : String) : Except SvcErr DB :=
  match AuthManager.LogoutAll db userID with
  | .error e => .error (.auth e)
  | .ok db => .ok db

/-- auth_service.go hashToken: hex-encoded SHA-256 of the token (the
external crypto/sha256 plus encoding/hex computation is the environment field
sha256Hex). -/
def hashToken (env : Env) (token : String) : String :=
  env.sha256Hex token

/-- auth_service.go RequestPasswordReset: a missing email returns nil on
purpose with no side effect; otherwise 32 random bytes are generated and
hex-encoded as the plaintext token, the hashed token and expiry now + 1 hour
are stored on the user record, and the plaintext token is handed to the email
collaborator; a send failure is logged, not returned.  The result pairs the
updated store with the list of emails handed to the collaborator. -/
def RequestPasswordReset (env : Env) (db : DB) (emailAddr : String) :
    Except SvcErr (DB × List SentEmail) :=
  match UserAdapter.FindByEmail db emailAddr with
  | .error _ => .ok (db, [])
  | .ok user =>
    let tokenByteSize := 32
    match env.randomBytes tokenByteSize with
    | .error e => .error (.auth (.storage e))
    | .ok tokenBytes =>
      let plaintextToken := hexEncode tokenBytes
      let hashedToken := hashToken env plaintextToken
      let expiresAt := env.now + 3600
      let user := { user with resetToken := hashedToken, resetTokenExpiry := expiresAt }
      let db := UserAdapter.UpdateUser db user
      let displayName := if user.displayName == "" then user.username else user.displayName
      let delivered := env.sendResetEmail user.email plaintextToken user.username displayName
      .ok (db, [{ toAddr := user.email, token := plaintextToken,
                  username := user.username, displayName := displayName,
                  delivered := delivered }])

/-- auth_service.go findUsersWithResetTokens: a stub that always fails with a
not-implemented error (its comment says the adapter query is missing and a
workaround is used). -/
def findUsersWithResetTokens : Except SvcErr (List MUser) :=
  .error (.auth (.storage "not implemented - use direct DB query"))

/-- auth_service.go ResetPassword: hash the provided token, scan the users
carrying reset tokens for an unexpired matching hash (expired rows are
skipped), fail with ErrInvalidToken on no match; on a match, bcrypt-hash the
new password, clear the reset hash and expiry, delete every session of the
user, and store the updated record. -/
def ResetPassword (env : Env) (db : DB) (tokenFromUser newPassword : String) :
    Except SvcErr DB :=
  let hashedToken := hashToken env tokenFromUser
  match findUsersWithResetTokens with
  | .error e => .error e
  | .ok users =>
    let matchedUser := users.find?
      (fun user => !(decide (env.now > user.resetTokenExpiry)) && user.resetToken == hashedToken)
    match matchedUser with
    | none => .error .invalidToken
    | some user =>
      let hashedPassword := env.bcryptHash newPassword
      let user := { user with
        passwordHash := hashedPassword
        resetToken := ""
        resetTokenExpiry := 0 }
      let db := match AuthManager.LogoutAll db (formatUint10 user.id) with
        | .ok db => db
        | .error _ => db
      .ok (UserAdapter.UpdateUser db user)

end AuthService

namespace AuthHandler

/-- auth_handler.go handleLoginAuthError: the status is always 401; the
message is the inactive-user message when errors.Is matches
service.ErrUserNotActive, the locked-account message when the error text
equals it, and the generic invalid-credentials message otherwise. -/
def handleLoginAuthError (e : SvcErr) : Nat × String :=
  let lockedMsg := "conta temporariamente bloqueada, tente novamente mais tarde"
  let message :=
    if e = SvcErr.userNotActive then "usuário inativo"
    else if e.message == lockedMsg then lockedMsg
    else "credenciais inválidas"
  (401, message)

end AuthHandler

/-- Modelled from the spec: a token bucket of section 4.3 (the rate-limiter
middleware source is not available, only its test and its callers).  Token
count is a float in the source, modelled exactly as a rational; lastRefill is
the timestamp of the last refill. -/
structure Bucket where
  tokens : ℚ
  burst : ℚ
  rate : ℚ
  lastRefill : ℚ
deriving DecidableEq, Repr

/-- Modelled from the spec: a key lazily gets a bucket with burst capacity B
(created full, as the tests require the first B requests of a fresh key to be
admitted) and refill rate R. -/
def Bucket.new (burst rate now : ℚ) : Bucket :=
  { tokens := burst, burst := burst, rate := rate, lastRefill := now }

/-- Modelled from the spec: Allow on one bucket (section 4.3) - add
elapsed * rate tokens capped at the burst capacity; if at least one token is
available, subtract one and admit, else reject. -/
def Bucket.allow (b : Bucket) (now : ℚ) : Bool × Bucket :=
  let elapsed := now - b.lastRefill
  let tokens := min b.burst (b.tokens + elapsed * b.rate)
  if 1 ≤ tokens then
    (true, { b with tokens := tokens - 1, lastRefill := now })
  else
    (false, { b with tokens := tokens, lastRefill := now })

/-- A run of consecutive Allow calls on one bucket at a fixed instant,
returning the number of admitted calls and the final bucket. -/
def Bucket.allowN (b : Bucket) (now : ℚ) : Nat → Nat × Bucket
  | 0 => (0, b)
  | n + 1 =>
    let r1 := b.allow now
    let r2 := r1.2.allowN now n
    ((if r1.1 then 1 else 0) + r2.1, r2.2)

/-- Modelled from the spec: the keyed per-IP limiter holding one lazily
created bucket per key (NewIPRateLimiter in the tests and router; the idle
eviction sweep is a memory optimisation with no bearing on admission and is
not modelled). -/
structure IPRateLimiter where
  rate : ℚ
  burst : ℚ
  buckets : List (String × Bucket)
deriving DecidableEq, Repr

/-- Modelled from the spec: NewIPRateLimiter(rate, burst, idleTTL) starts
with no buckets. -/
def IPRateLimiter.new (rate burst : ℚ) : IPRateLimiter :=
  { rate := rate, burst := burst, buckets := [] }

/-- Map assignment for the bucket map. -/
def setBucket (l : List (String × Bucket)) (key : String) (b : Bucket) :
    List (String × Bucket) :=
  (key, b) :: l.filter (fun p => p.1 != key)

/-- The bucket a key would use now: its existing bucket, or a fresh full one. -/
def IPRateLimiter.bucketFor (rl : IPRateLimiter) (key : String) (now : ℚ) : Bucket :=
  match rl.buckets.find? (fun p => p.1 == key) with
  | some p => p.2
  | none => Bucket.new rl.burst rl.rate now

/-- Modelled from the spec: Allow(key) of section 4.3 - fetch or lazily
create the bucket of the key, run the token-bucket admission step, store the
updated bucket. -/
def IPRateLimiter.Allow (rl : IPRateLimiter) (key : String) (now : ℚ) :
    Bool × IPRateLimiter :=
  let r := (rl.bucketFor key now).allow now
  (r.1, { rl with buckets := setBucket rl.buckets key r.2 })

/-- A run of consecutive Allow(key) calls at a fixed instant, returning the
number of admitted calls and the final limiter. -/
def IPRateLimiter.AllowN (rl : IPRateLimiter) (key : String) (now : ℚ) :
    Nat → Nat × IPRateLimiter
  | 0 => (0, rl)
  | n + 1 =>
    let r1 := rl.Allow key now
    let r2 := r1.2.AllowN key now n
    ((if r1.1 then 1 else 0) + r2.1, r2.2)

/-- A concrete user record used to evaluate the model on explicit inputs. -/
def alice : MUser :=
  { id := 7
    username := "alice"
    email := "alice@example.com"
    displayName := "Alice"
    firstName := "Alice"
    lastName := "Doe"
    passwordHash := "bcrypt$old"
    resetToken := ""
    resetTokenExpiry := 0
    role := "user"
    active := true
    emailVerified := true
    lastLogin := 0 }

/-- A concrete store holding one user and no sessions. -/
def db0 : DB := { users := [alice], sessions := [] }

/-- A concrete environment used to evaluate the model on explicit inputs: the
random source yields the bytes 0, 1, 2, ..., the hash stand-ins are injective
taggings, and the email collaborator reports success. -/
def env0 : Env :=
  { now := 1000
    randomBytes := fun n => .ok (List.range n)
    genSessionID := .ok "sess-1"
    sha256Hex := fun s => "sha256:" ++ s
    bcryptHash := fun s => "bcrypt:" ++ s
    verifyPassword := fun h p => h == "bcrypt:" ++ p
    sendResetEmail := fun _ _ _ _ => true
    sessionTTL := 86400
    maxFailedAttempts := 5
    lockoutDuration := 900
    attemptWindow := 900 }

/-- The concrete environment with a failing email collaborator. -/
def env1 : Env := { env0 with sendResetEmail := fun _ _ _ _ => false }

/-! Helper lemmas shared by the claim theorems. -/

lemma hexEncode_length : ∀ bs : List Nat, (hexEncode bs).length = 2 * bs.length
  | [] => rfl
  | b :: bs => by
    show (byteHex b ++ hexEncode bs).length = 2 * (b :: bs).length
    rw [String.length_append, hexEncode_length bs]
    simp [byteHex]
    ring

/-- ResetPassword always propagates the not-implemented error of the stub
findUsersWithResetTokens, for every environment, store and input. -/
lemma resetPassword_eq_notImplemented (env : Env) (db : DB)
    (token newPassword : String) :
    AuthService.ResetPassword env db token newPassword =
      .error (.auth (.storage "not implemented - use direct DB query")) := rfl

lemma parseUint10_lt (s : String) (v : Nat) (h : parseUint10 s = .ok v) :
    v < 2 ^ 64 := by
  unfold parseUint10 at h
  split at h
  · cases h
  · split at h
    · split at h
      · rename_i hlt
        rw [Except.ok.injEq] at h
        rw [h] at hlt
        exact hlt
      · cases h
    · cases h

lemma GetSession_after_delete (db : DB) (sid : String) :
    SessionAdapter.GetSession (SessionAdapter.DeleteSession db sid) sid =
      .error .sessionNotFound := by
  unfold SessionAdapter.GetSession SessionAdapter.DeleteSession
  have h : ((db.sessions.filter (fun s => s.id != sid)).find?
      (fun s => s.id == sid)) = none := by
    rw [List.find?_eq_none]
    intro s hs
    have h2 := (List.mem_filter.mp hs).2
    simp only [bne_iff_ne, ne_eq] at h2
    simp [h2]
  rw [h]

lemma DeleteSession_idem (db : DB) (sid : String) :
    SessionAdapter.DeleteSession (SessionAdapter.DeleteSession db sid) sid =
      SessionAdapter.DeleteSession db sid := by
  unfold SessionAdapter.DeleteSession
  simp [List.filter_filter]

lemma Bucket.allow_spec (b : Bucket) (now : ℚ) :
    b.allow now =
      if 1 ≤ min b.burst (b.tokens + (now - b.lastRefill) * b.rate) then
        (true,
         { tokens := min b.burst (b.tokens + (now - b.lastRefill) * b.rate) - 1,
           burst := b.burst, rate := b.rate, lastRefill := now })
      else
        (false,
         { tokens := min b.burst (b.tokens + (now - b.lastRefill) * b.rate),
           burst := b.burst, rate := b.rate, lastRefill := now }) := rfl

lemma Bucket.allow_zero_elapsed (b : Bucket) (h : b.tokens ≤ b.burst) :
    b.allow b.lastRefill =
      if 1 ≤ b.tokens then (true, { b with tokens := b.tokens - 1 })
      else (false, b) := by
  unfold Bucket.allow
  simp [min_eq_right h]

lemma Bucket.allowN_drain : ∀ (m n : ℕ) (b : Bucket),
    b.tokens = n → (n : ℚ) ≤ b.burst →
    b.allowN b.lastRefill m = (min m n, { b with tokens := ((n - min m n : ℕ) : ℚ) })
  | 0, n, b, hb, _ => by
    simp [Bucket.allowN, ← hb]
  | m + 1, 0, b, hb, hburst => by
    have hz : ¬ (1:ℚ) ≤ b.tokens := by rw [hb]; norm_num
    have h1 := Bucket.allow_zero_elapsed b (by rw [hb]; exact hburst)
    rw [if_neg hz] at h1
    have ih := Bucket.allowN_drain m 0 b hb hburst
    simp [Bucket.allowN, h1, ih, ← hb]
  | m + 1, n + 1, b, hb, hburst => by
    have h1le : (1:ℚ) ≤ b.tokens := by
      rw [hb]; exact_mod_cast Nat.succ_le_succ (Nat.zero_le n)
    have h1 := Bucket.allow_zero_elapsed b (le_of_eq_of_le hb hburst)
    rw [if_pos h1le] at h1
    set b' : Bucket := { b with tokens := b.tokens - 1 } with hb'
    have hb't : b'.tokens = (n : ℚ) := by
      simp [hb', hb]
    have hb'burst : (n : ℚ) ≤ b'.burst := by
      have : ((n : ℚ)) ≤ ((n + 1 : ℕ) : ℚ) := by push_cast; linarith
      exact this.trans (by simpa [hb'] using hburst)
    have hlast : b'.lastRefill = b.lastRefill := rfl
    have ih := Bucket.allowN_drain m n b' hb't hb'burst
    rw [hlast] at ih
    simp only [Bucket.allowN, h1, ih, if_true]
    rw [Prod.ext_iff]
    refine ⟨by omega, ?_⟩
    show ({ tokens := ((n - m ⊓ n : ℕ) : ℚ), burst := b'.burst, rate := b'.rate,
            lastRefill := b.lastRefill } : Bucket) = _
    have hsub : n - m ⊓ n = n + 1 - (m + 1) ⊓ (n + 1) := by omega
    simp [hb', hsub]

lemma find?_setBucket (l : List (String × Bucket)) (key : String) (b : Bucket) :
    (setBucket l key b).find? (fun p => p.1 == key) = some (key, b) := by
  simp [setBucket, List.find?_cons_of_pos]

lemma setBucket_setBucket (l : List (String × Bucket)) (key : String) (b b' : Bucket) :
    setBucket (setBucket l key b) key b' = setBucket l key b' := by
  simp [setBucket, List.filter_filter]

lemma bucketFor_of_set (rl : IPRateLimiter) (l : List (String × Bucket))
    (key : String) (b : Bucket) (now : ℚ) (h : rl.buckets = setBucket l key b) :
    rl.bucketFor key now = b := by
  unfold IPRateLimiter.bucketFor
  rw [h, find?_setBucket]

lemma IPRateLimiter.AllowN_spec : ∀ (n : ℕ) (rl : IPRateLimiter) (key : String) (now : ℚ),
    rl.AllowN key now (n + 1) =
      (((rl.bucketFor key now).allowN now (n + 1)).1,
       { rl with buckets := setBucket rl.buckets key ((rl.bucketFor key now).allowN now (n + 1)).2 })
  | 0, rl, key, now => by
    simp [IPRateLimiter.AllowN, IPRateLimiter.Allow, Bucket.allowN]
  | n + 1, rl, key, now => by
    have ih := IPRateLimiter.AllowN_spec n
      { rl with buckets := setBucket rl.buckets key ((rl.bucketFor key now).allow now).2 } key now
    have hbf : ({ rl with buckets := setBucket rl.buckets key ((rl.bucketFor key now).allow now).2 }
        : IPRateLimiter).bucketFor key now = ((rl.bucketFor key now).allow now).2 :=
      bucketFor_of_set _ rl.buckets key _ now rfl
    rw [hbf] at ih
    show ((if (rl.Allow key now).1 then 1 else 0) + ((rl.Allow key now).2.AllowN key now (n+1)).1,
          ((rl.Allow key now).2.AllowN key now (n+1)).2) = _
    have hAllow : rl.Allow key now =
        (((rl.bucketFor key now).allow now).1,
         { rl with buckets := setBucket rl.buckets key ((rl.bucketFor key now).allow now).2 }) := rfl
    rw [hAllow, ih]
    simp only [setBucket_setBucket]
    show _ = (((rl.bucketFor key now).allowN now (n + 2)).1,
       { rl with buckets := setBucket rl.buckets key ((rl.bucketFor key now).allowN now (n + 2)).2 })
    have hstep : (rl.bucketFor key now).allowN now (n + 2) =
        ((if ((rl.bucketFor key now).allow now).1 then 1 else 0) +
           (((rl.bucketFor key now).allow now).2.allowN now (n+1)).1,
         (((rl.bucketFor key now).allow now).2.allowN now (n+1)).2) := rfl
    rw [hstep]

/-! Claim theorems. -/

/-- Claim C2: Logout is idempotent - deleting an absent session is not an
error - and for every session id, Logout followed by ValidateSession on the
same id fails with SessionNotFound, while a second Logout also succeeds and
leaves the store unchanged. -/
theorem logout_idempotent_and_validate_fails (env : Env) (db : DB) (sid : String) :
    ∃ db', AuthManager.Logout db sid = .ok db' ∧
      (AuthManager.ValidateSession env db' sid).1 = .error .sessionNotFound ∧
      AuthManager.Logout db' sid = .ok db' := by
  refine ⟨SessionAdapter.DeleteSession db sid, rfl, ?_, ?_⟩
  · unfold AuthManager.ValidateSession
    rw [GetSession_after_delete]
  · unfold AuthManager.Logout
    rw [DeleteSession_idem]

/-- Claim C4: the claim describes the postconditions of a successful
ResetPassword, but no call to ResetPassword can ever succeed: the stub
findUsersWithResetTokens makes every call fail with the not-implemented
storage error, so the specified success path (store the new hash, clear the
token, invalidate the sessions) is unreachable dead code. -/
theorem resetPassword_never_succeeds (env : Env) (db : DB)
    (token newPassword : String) :
    AuthService.ResetPassword env db token newPassword =
      .error (.auth (.storage "not implemented - use direct DB query")) :=
  resetPassword_eq_notImplemented env db token newPassword

/-- Claim C5: ResetPassword is claimed to fail with InvalidToken both when no
stored hash matches and when a matching token is expired, but the returned
error is never InvalidToken: every call fails earlier with the
not-implemented storage error of the stub findUsersWithResetTokens, so the
InvalidToken branch is unreachable. -/
theorem resetPassword_error_not_invalidToken (env : Env) (db : DB)
    (token newPassword : String) :
    AuthService.ResetPassword env db token newPassword ≠ .error .invalidToken ∧
    AuthService.ResetPassword env db token newPassword =
      .error (.auth (.storage "not implemented - use direct DB query")) := by
  rw [resetPassword_eq_notImplemented]
  exact ⟨by simp, rfl⟩

/-- Claim C1: the reset round trip is specified to succeed exactly once - the
request step does hand a plaintext token to the email collaborator, but the
very first ResetPassword call with exactly that token (and a valid new
password) fails with the not-implemented storage error of the stub
findUsersWithResetTokens, so the round trip never succeeds at all. -/
theorem resetFlow_roundTrip_fails_notImplemented :
    ∃ db1, AuthService.RequestPasswordReset env0 db0 "alice@example.com" =
        .ok (db1, [{ toAddr := "alice@example.com", token := hexEncode (List.range 32),
                     username := "alice", displayName := "Alice", delivered := true }]) ∧
      AuthService.ResetPassword env0 db1 (hexEncode (List.range 32)) "NewSecure123!" =
        .error (.auth (.storage "not implemented - use direct DB query")) :=
  ⟨_, rfl, resetPassword_eq_notImplemented _ _ _ _⟩

/-- Claim C10: the session adapter requires numeric user ids - a userID that
does not parse as a decimal unsigned integer makes CreateSession and
DeleteUserSessions fail before touching any session row, and a successful
CreateSession returns a session whose UserID is the decimal re-encoding of
the parsed value. -/
theorem sessionAdapter_numeric_userID_contract
    (env : Env) (db : DB) (bad good em : String) (v : Nat) (sid : String)
    (expiresAt : Nat) (md : SessionMeta)
    (hbad : parseUint10 bad = .error em)
    (hgood : parseUint10 good = .ok v)
    (hsid : env.genSessionID = .ok sid) :
    SessionAdapter.CreateSession env db bad expiresAt md = .error (.storage em) ∧
    SessionAdapter.DeleteUserSessions db bad = .error (.storage em) ∧
    ∃ db' s, SessionAdapter.CreateSession env db good expiresAt md = .ok (db', s) ∧
      s.userID = formatUint10 v := by
  have hv : v % 2 ^ 64 = v := Nat.mod_eq_of_lt (parseUint10_lt good v hgood)
  refine ⟨?_, ?_, ?_⟩
  · unfold SessionAdapter.CreateSession
    rw [hbad]
  · unfold SessionAdapter.DeleteUserSessions
    rw [hbad]
  · have hcs : SessionAdapter.CreateSession env db good expiresAt md =
        .ok ({ db with
               sessions := db.sessions ++
                 [{ id := sid
                    userID := v % 2 ^ 64
                    expiresAt := expiresAt
                    createdAt := env.now
                    userAgent := md.userAgent
                    ip := md.ip }] },
             SessionAdapter.toAuthSession
               { id := sid
                 userID := v % 2 ^ 64
                 expiresAt := expiresAt
                 createdAt := env.now
                 userAgent := md.userAgent
                 ip := md.ip }) := by
      unfold SessionAdapter.CreateSession
      rw [hgood, hsid]
    refine ⟨_, _, hcs, ?_⟩
    show formatUint10 (v % 2 ^ 64) = formatUint10 v
    rw [hv]

/-- Witness for claim C10 at concrete inputs: the userID string abc fails both
adapter operations, and the userID string 0017 parses to 17 and yields a
session whose UserID is the decimal re-encoding 17. -/
theorem sessionAdapter_numeric_userID_contract_witness :
    parseUint10 "abc" = .error "invalid syntax" ∧
    parseUint10 "0017" = .ok 17 ∧
    env0.genSessionID = .ok "sess-1" ∧
    (SessionAdapter.CreateSession env0 db0 "abc" 5 ⟨"ua", "ip"⟩ =
        .error (.storage "invalid syntax") ∧
     SessionAdapter.DeleteUserSessions db0 "abc" = .error (.storage "invalid syntax") ∧
     ∃ db' s, SessionAdapter.CreateSession env0 db0 "0017" 5 ⟨"ua", "ip"⟩ = .ok (db', s) ∧
       s.userID = formatUint10 17) :=
  ⟨rfl, rfl, rfl,
   sessionAdapter_numeric_userID_contract env0 db0 "abc" "0017" "invalid syntax" 17
     "sess-1" 5 ⟨"ua", "ip"⟩ rfl rfl rfl⟩

/-- Claim C7: RequestPasswordReset for an email with no matching user returns
success with the store unchanged and no email handed to the collaborator. -/
theorem requestPasswordReset_unknown_email_no_side_effects
    (env : Env) (db : DB) (emailAddr : String)
    (h : ∀ u ∈ db.users, u.email ≠ emailAddr) :
    AuthService.RequestPasswordReset env db emailAddr = .ok (db, []) := by
  have hf : UserAdapter.FindByEmail db emailAddr = .error .recordNotFound := by
    unfold UserAdapter.FindByEmail
    have hn : db.users.find? (fun u => u.email == emailAddr) = none := by
      rw [List.find?_eq_none]
      intro u hu
      simpa using h u hu
    rw [hn]
  unfold AuthService.RequestPasswordReset
  rw [hf]

/-- Witness for claim C7 at a concrete store that has no user with the
requested email. -/
theorem requestPasswordReset_unknown_email_no_side_effects_witness :
    (∀ u ∈ db0.users, u.email ≠ "bob@example.com") ∧
    AuthService.RequestPasswordReset env0 db0 "bob@example.com" = .ok (db0, []) :=
  ⟨by decide,
   requestPasswordReset_unknown_email_no_side_effects env0 db0 "bob@example.com"
     (by decide)⟩

/-- Claim C6: RequestPasswordReset for an existing user requests 32 random
bytes, hex-encodes them as the plaintext token (64 hex characters), stores on
the user record only the one-way hash of that token together with expiry
now + 1 hour, and hands the plaintext token to the email collaborator; the
store receives the hash, never the plaintext. -/
theorem requestPasswordReset_stores_hash_and_emails_plaintext
    (env : Env) (db : DB) (emailAddr : String) (u : MUser) (bs : List Nat)
    (hu : UserAdapter.FindByEmail db emailAddr = .ok u)
    (hr : env.randomBytes 32 = .ok bs) (hlen : bs.length = 32) :
    AuthService.RequestPasswordReset env db emailAddr =
      .ok (UserAdapter.UpdateUser db
             { u with
               resetToken := env.sha256Hex (hexEncode bs)
               resetTokenExpiry := env.now + 3600 },
           [{ toAddr := u.email
              token := hexEncode bs
              username := u.username
              displayName := if u.displayName == "" then u.username else u.displayName
              delivered := env.sendResetEmail u.email (hexEncode bs) u.username
                (if u.displayName == "" then u.username else u.displayName) }]) ∧
    (hexEncode bs).length = 64 := by
  constructor
  · simp only [AuthService.RequestPasswordReset, AuthService.hashToken, hu, hr]
  · rw [hexEncode_length, hlen]

/-- Witness for claim C6 at a concrete store, environment and byte list. -/
theorem requestPasswordReset_stores_hash_witness :
    UserAdapter.FindByEmail db0 "alice@example.com" = .ok alice ∧
    env0.randomBytes 32 = .ok (List.range 32) ∧
    (List.range 32).length = 32 ∧
    (AuthService.RequestPasswordReset env0 db0 "alice@example.com" =
      .ok (UserAdapter.UpdateUser db0
             { alice with
               resetToken := env0.sha256Hex (hexEncode (List.range 32))
               resetTokenExpiry := env0.now + 3600 },
           [{ toAddr := alice.email
              token := hexEncode (List.range 32)
              username := alice.username
              displayName := if alice.displayName == "" then alice.username
                else alice.displayName
              delivered := env0.sendResetEmail alice.email (hexEncode (List.range 32))
                alice.username
                (if alice.displayName == "" then alice.username else alice.displayName) }]) ∧
     (hexEncode (List.range 32)).length = 64) :=
  ⟨rfl, rfl, rfl,
   requestPasswordReset_stores_hash_and_emails_plaintext env0 db0 "alice@example.com"
     alice (List.range 32) rfl rfl rfl⟩

/-- Claim C8: a failing email collaborator is not fatal - RequestPasswordReset
for an existing user still returns success, and the hashed token and expiry
remain stored on the user record even though the handed email was not
delivered. -/
theorem requestPasswordReset_email_failure_not_fatal
    (env : Env) (db : DB) (emailAddr : String) (u : MUser) (bs : List Nat)
    (hu : UserAdapter.FindByEmail db emailAddr = .ok u)
    (hr : env.randomBytes 32 = .ok bs)
    (hfail : env.sendResetEmail u.email (hexEncode bs) u.username
      (if u.displayName == "" then u.username else u.displayName) = false) :
    ∃ sent, AuthService.RequestPasswordReset env db emailAddr =
        .ok (UserAdapter.UpdateUser db
               { u with
                 resetToken := env.sha256Hex (hexEncode bs)
                 resetTokenExpiry := env.now + 3600 }, [sent]) ∧
      sent.delivered = false ∧ sent.token = hexEncode bs := by
  refine ⟨{ toAddr := u.email
            token := hexEncode bs
            username := u.username
            displayName := if u.displayName == "" then u.username else u.displayName
            delivered := env.sendResetEmail u.email (hexEncode bs) u.username
              (if u.displayName == "" then u.username else u.displayName) }, ?_, hfail, rfl⟩
  simp only [AuthService.RequestPasswordReset, AuthService.hashToken, hu, hr]

/-- Witness for claim C8: with the failing email collaborator of env1 the
request still succeeds and the stored record keeps the hashed token. -/
theorem requestPasswordReset_email_failure_not_fatal_witness :
    UserAdapter.FindByEmail db0 "alice@example.com" = .ok alice ∧
    env1.randomBytes 32 = .ok (List.range 32) ∧
    env1.sendResetEmail alice.email (hexEncode (List.range 32)) alice.username
      (if alice.displayName == "" then alice.username else alice.displayName) = false ∧
    ∃ sent, AuthService.RequestPasswordReset env1 db0 "alice@example.com" =
        .ok (UserAdapter.UpdateUser db0
               { alice with
                 resetToken := env1.sha256Hex (hexEncode (List.range 32))
                 resetTokenExpiry := env1.now + 3600 }, [sent]) ∧
      sent.delivered = false ∧ sent.token = hexEncode (List.range 32) :=
  ⟨rfl, rfl, rfl,
   requestPasswordReset_email_failure_not_fatal env1 db0 "alice@example.com"
     alice (List.range 32) rfl rfl rfl⟩

/-- Claim C9: an unknown identifier and a wrong password on an existing
identifier are indistinguishable to the caller - both runs of the service
Login return the same ErrInvalidCredentials, and the handler maps that error
to the same status 401 and the same user-facing message, never revealing
whether the identifier exists. -/
theorem login_unknown_vs_wrongPassword_indistinguishable
    (env : Env) (st1 st2 : AMState) (id1 pw1 id2 pw2 ip1 ua1 ip2 ua2 : String)
    (u : MUser)
    (h1 : ∀ w ∈ st1.db.users, w.username ≠ id1 ∧ w.email ≠ id1)
    (hl1 : ¬ (AuthManager.getLockout st1.lockouts id1 env.now).isLocked env.now)
    (h2 : st2.db.users.find? (fun w => w.username == id2 || w.email == id2) = some u)
    (hl2 : ¬ (AuthManager.getLockout st2.lockouts id2 env.now).isLocked env.now)
    (hpw : env.verifyPassword u.passwordHash pw2 = false) :
    (AuthService.Login env st1 id1 pw1 ip1 ua1).1 = .error .invalidCredentials ∧
    (AuthService.Login env st2 id2 pw2 ip2 ua2).1 = .error .invalidCredentials ∧
    AuthHandler.handleLoginAuthError .invalidCredentials =
      (401, "credenciais inválidas") := by
  refine ⟨?_, ?_, rfl⟩
  · have hvc : UserAdapter.ValidateCredentials env st1.db id1 pw1 =
        .error .invalidCredentials := by
      unfold UserAdapter.ValidateCredentials
      have hn : st1.db.users.find? (fun w => w.username == id1 || w.email == id1) = none := by
        rw [List.find?_eq_none]
        intro w hw
        have hww := h1 w hw
        simp [hww.1, hww.2]
      rw [hn]
    simp only [AuthService.Login, AuthManager.Login, hvc, hl1, if_false]
  · have hvc : UserAdapter.ValidateCredentials env st2.db id2 pw2 =
        .error .invalidCredentials := by
      unfold UserAdapter.ValidateCredentials
      rw [h2]
      simp [hpw]
    simp only [AuthService.Login, AuthManager.Login, hvc, hl2, if_false]

/-- Witness for claim C9 at concrete stores: an empty store with an unknown
identifier, and a store whose user gets a wrong password; both runs produce
the same error and the same handler output. -/
theorem login_indistinguishable_witness :
    (∀ w ∈ (AMState.mk ⟨[], []⟩ []).db.users, w.username ≠ "ghost" ∧ w.email ≠ "ghost") ∧
    ¬ (AuthManager.getLockout (AMState.mk ⟨[], []⟩ []).lockouts "ghost"
        env0.now).isLocked env0.now ∧
    (AMState.mk db0 []).db.users.find?
      (fun w => w.username == "alice" || w.email == "alice") = some alice ∧
    ¬ (AuthManager.getLockout (AMState.mk db0 []).lockouts "alice"
        env0.now).isLocked env0.now ∧
    env0.verifyPassword alice.passwordHash "wrongpass" = false ∧
    ((AuthService.Login env0 (AMState.mk ⟨[], []⟩ []) "ghost" "pw" "ip1" "ua1").1 =
        .error .invalidCredentials ∧
     (AuthService.Login env0 (AMState.mk db0 []) "alice" "wrongpass" "ip2" "ua2").1 =
        .error .invalidCredentials ∧
     AuthHandler.handleLoginAuthError .invalidCredentials =
       (401, "credenciais inválidas")) :=
  ⟨by decide, by decide, rfl, by decide, rfl,
   login_unknown_vs_wrongPassword_indistinguishable env0 (AMState.mk ⟨[], []⟩ [])
     (AMState.mk db0 []) "ghost" "pw" "alice" "wrongpass" "ip1" "ua1" "ip2" "ua2" alice
     (by decide) (by decide) rfl (by decide) rfl⟩

/-- Claim C3 (amended): with burst B at least 1 and rate R positive, exactly B
consecutive Allow(key) calls with no elapsed time succeed and the next call at
the same instant fails; after waiting w time units with 1/R at most w and w
below 2/R, exactly one more call succeeds - the first is admitted and the one
right after, at the same instant, is rejected.  (The original claim, for every
wait of at least 1/R, is refuted by the counterexample.) -/
theorem rateLimiter_burst_refill_amended (B : ℕ) (R t0 w : ℚ) (key : String)
    (hB : 1 ≤ B) (hR : 0 < R) (hw1 : 1/R ≤ w) (hw2 : w < 2/R) :
    ((IPRateLimiter.new R B).AllowN key t0 B).1 = B ∧
    (((IPRateLimiter.new R B).AllowN key t0 B).2.Allow key t0).1 = false ∧
    ((((IPRateLimiter.new R B).AllowN key t0 B).2.Allow key t0).2.Allow key
      (t0 + w)).1 = true ∧
    (((((IPRateLimiter.new R B).AllowN key t0 B).2.Allow key t0).2.Allow key
      (t0 + w)).2.Allow key (t0 + w)).1 = false := by
  have main :
      let rl0 := IPRateLimiter.new R B
      let drained := rl0.AllowN key t0 B
      let over := drained.2.Allow key t0
      let refill1 := over.2.Allow key (t0 + w)
      let refill2 := refill1.2.Allow key (t0 + w)
      drained.1 = B ∧ over.1 = false ∧ refill1.1 = true ∧ refill2.1 = false := ?_
  exact main
  intro rl0 drained over refill1 refill2
  obtain ⟨Bk, rfl⟩ : ∃ k, B = k + 1 := ⟨B - 1, by omega⟩
  have hwr1 : (1:ℚ) ≤ w * R := by
    have := (div_le_iff₀ hR).mp hw1
    linarith
  have hwr2 : w * R < 2 := by
    have := (lt_div_iff₀ hR).mp hw2
    linarith
  have hB1 : (1:ℚ) ≤ ((Bk + 1 : ℕ) : ℚ) := by exact_mod_cast hB
  have hbf0 : rl0.bucketFor key t0 = Bucket.new ((Bk + 1 : ℕ) : ℚ) R t0 := rfl
  have hdrain := Bucket.allowN_drain (Bk + 1) (Bk + 1)
    (Bucket.new ((Bk + 1 : ℕ) : ℚ) R t0) rfl (le_refl _)
  have hlast0 : (Bucket.new ((Bk + 1 : ℕ) : ℚ) R t0).lastRefill = t0 := rfl
  rw [hlast0] at hdrain
  simp only [Nat.min_self, Nat.sub_self, Nat.cast_zero] at hdrain
  set bD : Bucket := { Bucket.new ((Bk + 1 : ℕ) : ℚ) R t0 with tokens := 0 } with hbD
  have hdr : drained = (Bk + 1, { rl0 with buckets := setBucket rl0.buckets key bD }) := by
    show rl0.AllowN key t0 (Bk + 1) = _
    rw [IPRateLimiter.AllowN_spec, hbf0, hdrain]
    rfl
  have hdr1 : drained.1 = Bk + 1 := by rw [hdr]
  have hbfD : drained.2.bucketFor key t0 = bD := by
    rw [hdr]; exact bucketFor_of_set _ rl0.buckets key bD t0 rfl
  have hallowD : bD.allow t0 = (false, bD) := by
    have h0 : bD.lastRefill = t0 := rfl
    have h := Bucket.allow_zero_elapsed bD (by simp [hbD, Bucket.new]; positivity)
    rw [h0] at h
    rw [h, if_neg]
    simp [hbD, Bucket.new]
  have hover : over = (false, { drained.2 with buckets := setBucket drained.2.buckets key bD }) := by
    show drained.2.Allow key t0 = _
    unfold IPRateLimiter.Allow
    rw [hbfD, hallowD]
  have hover1 : over.1 = false := by rw [hover]
  have hbfD2 : over.2.bucketFor key (t0 + w) = bD := by
    rw [hover]
    exact bucketFor_of_set _ drained.2.buckets key bD (t0 + w) rfl
  set tok1 : ℚ := min ((Bk + 1 : ℕ) : ℚ) (0 + w * R) with htok1
  have htok1le : tok1 ≤ w * R := by
    rw [htok1, zero_add]; exact min_le_right _ _
  have htok1ge : (1:ℚ) ≤ tok1 := by
    rw [htok1]
    refine le_min hB1 ?_
    linarith
  set b1 : Bucket := { bD with tokens := tok1 - 1, lastRefill := t0 + w } with hb1
  have hallow1 : bD.allow (t0 + w) = (true, b1) := by
    have hmin : min bD.burst (bD.tokens + (t0 + w - bD.lastRefill) * bD.rate) = tok1 := by
      show min ((Bk + 1 : ℕ) : ℚ) ((0:ℚ) + (t0 + w - t0) * R) = tok1
      rw [htok1]
      congr 1
      ring
    rw [Bucket.allow_spec, hmin, if_pos htok1ge]
  have hrefill1 : refill1 = (true, { over.2 with buckets := setBucket over.2.buckets key b1 }) := by
    show over.2.Allow key (t0 + w) = _
    unfold IPRateLimiter.Allow
    rw [hbfD2, hallow1]
  have hrefill11 : refill1.1 = true := by rw [hrefill1]
  have hbfb1 : refill1.2.bucketFor key (t0 + w) = b1 := by
    rw [hrefill1]
    exact bucketFor_of_set _ over.2.buckets key b1 (t0 + w) rfl
  have hallow2 : (b1.allow (t0 + w)).1 = false := by
    have h0 : b1.lastRefill = t0 + w := rfl
    have hle : b1.tokens ≤ b1.burst := by
      show tok1 - 1 ≤ ((Bk + 1 : ℕ) : ℚ)
      have : tok1 ≤ ((Bk + 1 : ℕ) : ℚ) := by rw [htok1]; exact min_le_left _ _
      linarith
    have hcon : ¬ (1:ℚ) ≤ b1.tokens := by
      show ¬ (1:ℚ) ≤ tok1 - 1
      intro hc
      have h2 : (2:ℚ) ≤ w * R := by linarith
      linarith
    have h := Bucket.allow_zero_elapsed b1 hle
    rw [h0] at h
    rw [h, if_neg hcon]
  have hrefill21 : refill2.1 = false := by
    show (refill1.2.Allow key (t0 + w)).1 = false
    unfold IPRateLimiter.Allow
    rw [hbfb1]
    exact hallow2
  exact ⟨hdr1, hover1, hrefill11, hrefill21⟩

/-- Counterexample to claim C3 as stated: with burst 2 and rate 1, the two
burst calls are admitted and the third rejected, but waiting 2 time units (a
wait of at least 1/R) refills two tokens, so the next two Allow calls on the
same key are both admitted - it is false that exactly one more call succeeds
after every wait of at least 1/R. -/
theorem rateLimiter_refill_counterexample :
    let rl0 := IPRateLimiter.new 1 2
    let r1 := rl0.Allow "k" 0
    let r2 := r1.2.Allow "k" 0
    let r3 := r2.2.Allow "k" 0
    let r4 := r3.2.Allow "k" 2
    let r5 := r4.2.Allow "k" 2
    (1:ℚ)/1 ≤ 2 ∧ r1.1 = true ∧ r2.1 = true ∧ r3.1 = false ∧
      r4.1 = true ∧ r5.1 = true := by
  simp only [IPRateLimiter.new, IPRateLimiter.Allow, IPRateLimiter.bucketFor, setBucket,
    Bucket.new, Bucket.allow, List.find?, List.filter]
  norm_num

/-- Witness for the amended claim C3 at burst 2, rate 1, wait 1 on one key. -/
theorem rateLimiter_burst_refill_amended_witness :
    ((1:ℕ) ≤ 2 ∧ (0:ℚ) < 1 ∧ (1:ℚ)/1 ≤ 1 ∧ (1:ℚ) < 2/1) ∧
    (((IPRateLimiter.new 1 ((2:ℕ) : ℚ)).AllowN "k" 0 2).1 = 2 ∧
     (((IPRateLimiter.new 1 ((2:ℕ) : ℚ)).AllowN "k" 0 2).2.Allow "k" 0).1 = false ∧
     ((((IPRateLimiter.new 1 ((2:ℕ) : ℚ)).AllowN "k" 0 2).2.Allow "k" 0).2.Allow "k"
       ((0:ℚ) + 1)).1 = true ∧
     (((((IPRateLimiter.new 1 ((2:ℕ) : ℚ)).AllowN "k" 0 2).2.Allow "k" 0).2.Allow "k"
       ((0:ℚ) + 1)).2.Allow "k" ((0:ℚ) + 1)).1 = false) :=
  ⟨⟨by norm_num, by norm_num, by norm_num, by norm_num⟩,
   rateLimiter_burst_refill_amended 2 1 0 1 "k" (by norm_num) (by norm_num)
     (by norm_num) (by norm_num)⟩

end GoHtmx
